import Mathlib

set_option maxRecDepth 10000

/-!
Shallow embedding of the `DownloadManager` pipeline from
`src/code/core/downloader.py` (Kobeni_YT).

Python dicts held in the six stage lists are mutable objects shared by
reference; we model the object store as a total function `Nat → Item`
(references are natural numbers, freshly allocated by `add_to_queue`), and
the six stage queues as lists of references, so that mutating an item is
visible from every queue holding a reference to it, exactly as in Python.
Logging, `time.sleep`, the progress callback, `active_processes`
book-keeping and `save_database` (pure I/O, no effect on the queue state)
are omitted.  External effects -- the resolver result, the outcome of each
aria2c attempt, the stop flag being observed while streaming subprocess
output -- enter as explicit parameters.  Timestamps (`time.time()`,
`time.time()*1000`) are modelled as natural numbers.
-/

structure Item where
  id : Nat
  youtube_url : String
  quality : String
  title : String
  status : String
  download_url : Option String
  file_size : String
  error : Option String
  retry_count : Nat
  download_retry_count : Nat
  last_retry_time : Nat
  last_attempt : Nat
  deriving Repr, DecidableEq

/-- The `id` field models the string produced at downloader.py:86,
f-formatted from `int(time.time()*1000)`; the prefix is the constant
"yt_", so the id is determined by, and distinct exactly when, the
millisecond timestamp recorded here is.  `last_attempt` models
`item.get('last_attempt', 0)`: the key is absent until first claimed,
which reads as 0. -/
instance : Inhabited Item :=
  ⟨{ id := 0
     youtube_url := ""
     quality := ""
     title := ""
     status := ""
     download_url := none
     file_size := ""
     error := none
     retry_count := 0
     download_retry_count := 0
     last_retry_time := 0
     last_attempt := 0 }⟩

/-- The mutable state of a `DownloadManager` (downloader.py:32-44):
the six stage queues (as lists of object references), the object store,
a fresh-reference counter, and the global pause/stop flags. -/
structure DMState where
  pending_queue : List Nat
  processing_queue : List Nat
  download_queue : List Nat
  downloading : List Nat
  completed_list : List Nat
  failed_list : List Nat
  items : Nat → Item
  next_ref : Nat
  stopped : Bool
  paused : Bool

/-- In-place mutation of the dict referenced by `r`, visible through every
queue that holds `r`. -/
def DMState.setItem (s : DMState) (r : Nat) (f : Item → Item) : DMState :=
  { s with items := fun q => if q = r then f (s.items r) else s.items q }

/-- Total number of (references to) items across the six stage queues. -/
def DMState.totalCount (s : DMState) : Nat :=
  s.pending_queue.length + s.processing_queue.length + s.download_queue.length +
    s.downloading.length + s.completed_list.length + s.failed_list.length

/-- State right after `DownloadManager.__init__` (downloader.py:28-46). -/
def initState : DMState :=
  { pending_queue := []
    processing_queue := []
    download_queue := []
    downloading := []
    completed_list := []
    failed_list := []
    items := fun _ => default
    next_ref := 0
    stopped := false
    paused := false }

/-- add_to_queue (downloader.py:84-102).  `now_ms` is
`int(time.time()*1000)` at the moment of the call; the returned value is
the new item's `id`. -/
def add_to_queue (s : DMState) (now_ms : Nat) (youtube_url : String)
    (quality : String) : DMState × Nat :=
  let item : Item :=
    { id := now_ms
      youtube_url := youtube_url
      quality := quality
      title := youtube_url.take 50
      status := "pending"
      download_url := none
      file_size := "0 MB"
      error := none
      retry_count := 0
      download_retry_count := 0
      last_retry_time := 0
      last_attempt := 0 }
  let r := s.next_ref
  ({ s with items := fun q => if q = r then item else s.items q
            pending_queue := s.pending_queue ++ [r]
            next_ref := s.next_ref + 1 },
   item.id)

/-- What `generator.generate_link` did for one item: returned a truthy
result dict (carrying `download_url`, `title`, `file_size`), returned a
falsy result, or raised an exception with message `msg`. -/
inductive ResolveOutcome where
  | success (download_url title file_size : String)
  | failure
  | raised (msg : String)
  deriving Repr, DecidableEq

/-- One execution of the body of the while-loop of `_generator_worker`
(downloader.py:170-251) on the item at the head of `pending_queue`;
`now` is `time.time()`.  Note that the requeue branch (downloader.py:225)
re-inserts the popped item at the front of `pending_queue` without
removing it from `processing_queue`, unlike the success and exhaustion
branches.  `List.erase` models `list.remove` (first occurrence); in the
success branch the reference was just appended so it is present, as the
Python `remove` requires. -/
def generator_worker_step (s : DMState) (now : Nat) (outcome : ResolveOutcome) :
    DMState :=
  match s.pending_queue with
  | [] => s
  | r :: rest =>
    let s0 := { s with pending_queue := rest }
    if s0.stopped then
      { s0 with pending_queue := r :: s0.pending_queue }
    else if (s0.items r).last_attempt + 30 > now then
      { s0 with pending_queue := s0.pending_queue ++ [r] }
    else
      let s1 := s0.setItem r (fun it =>
        { it with last_attempt := now, status := "processing" })
      let s2 := { s1 with processing_queue := s1.processing_queue ++ [r] }
      match outcome with
      | .success du ti fs =>
        let s3 := s2.setItem r (fun it =>
          { it with
            status := "ready_to_download"
            download_url := some du
            file_size := fs
            title := ti
            retry_count := 0 })
        { s3 with
          processing_queue := s3.processing_queue.erase r
          download_queue := s3.download_queue ++ [r] }
      | .failure =>
        let s3 := s2.setItem r (fun it =>
          { it with retry_count := it.retry_count + 1 })
        if (s3.items r).retry_count ≤ 2 then
          { s3 with pending_queue := r :: s3.pending_queue }
        else
          let s4 := s3.setItem r (fun it =>
            { it with status := "failed", error := some "Falha após 3 tentativas" })
          let s5 := if s4.processing_queue.contains r
                    then { s4 with processing_queue := s4.processing_queue.erase r }
                    else s4
          { s5 with failed_list := s5.failed_list ++ [r] }
      | .raised msg =>
        let s3 := s2.setItem r (fun it =>
          { it with status := "failed", error := some (msg.take 80) })
        let s4 := if s3.processing_queue.contains r
                  then { s3 with processing_queue := s3.processing_queue.erase r }
                  else s3
        { s4 with failed_list := s4.failed_list ++ [r] }

/-- single_generator_worker: the one-shot generator `_single_generator_worker`
(downloader.py:279-353) used for ready-queue replenishment.  Its state
transitions mirror one `_generator_worker` iteration, including not
removing a requeued item from `processing_queue` (downloader.py:332). -/
def single_generator_worker (s : DMState) (now : Nat) (outcome : ResolveOutcome) :
    DMState :=
  if s.pending_queue.isEmpty || s.stopped then s
  else
    match s.pending_queue with
    | [] => s
    | r :: rest =>
      let s0 := { s with pending_queue := rest }
      if s0.stopped then
        { s0 with pending_queue := r :: s0.pending_queue }
      else if (s0.items r).last_attempt + 30 > now then
        { s0 with pending_queue := s0.pending_queue ++ [r] }
      else
        let s1 := s0.setItem r (fun it =>
          { it with last_attempt := now, status := "processing" })
        let s2 := { s1 with processing_queue := s1.processing_queue ++ [r] }
        match outcome with
        | .success du ti fs =>
          let s3 := s2.setItem r (fun it =>
            { it with
              status := "ready_to_download"
              download_url := some du
              file_size := fs
              title := ti
              retry_count := 0 })
          { s3 with
            processing_queue := s3.processing_queue.erase r
            download_queue := s3.download_queue ++ [r] }
        | .failure =>
          let s3 := s2.setItem r (fun it =>
            { it with retry_count := it.retry_count + 1 })
          if (s3.items r).retry_count ≤ 2 then
            { s3 with pending_queue := r :: s3.pending_queue }
          else
            let s4 := s3.setItem r (fun it =>
              { it with status := "failed", error := some "Falha após 3 tentativas" })
            let s5 := if s4.processing_queue.contains r
                      then { s4 with processing_queue := s4.processing_queue.erase r }
                      else s4
            { s5 with failed_list := s5.failed_list ++ [r] }
        | .raised msg =>
          let s3 := s2.setItem r (fun it =>
            { it with status := "failed", error := some (msg.take 80) })
          let s4 := if s3.processing_queue.contains r
                    then { s3 with processing_queue := s3.processing_queue.erase r }
                    else s3
          { s4 with failed_list := s4.failed_list ++ [r] }

/-- generate_additional_links (downloader.py:256-277): runs up to
`min num_links (pending length)` single generator workers (threads in
the source; modelled sequentially), the i-th with resolver outcome
`genOuts.getD i .failure`. -/
def generate_additional_links (s : DMState) (num_links : Nat) (now : Nat)
    (genOuts : List ResolveOutcome) : DMState :=
  if s.pending_queue.isEmpty || num_links == 0 then s
  else
    (List.range (min num_links s.pending_queue.length)).foldl
      (fun st i => single_generator_worker st now (genOuts.getD i .failure)) s

/-- The outcome of one aria2c attempt (one iteration of the retry loop in
`_download_with_retry`, downloader.py:375-522), as decided by the
environment: the stop flag was observed while streaming output (also
covers pause followed by stop, downloader.py:437-448); the process exited
with code 0, the staged file existed and was moved to a final file of the
given measured size; the process exited with code 0 but the staged file
was missing afterwards or could not be moved; the process failed with the
given stderr/stdout texts; or an exception (e.g. a timeout) was raised. -/
inductive AttemptOutcome where
  | stop
  | ok (file_size : String)
  | okMoveFail
  | err (stderrS stdoutS : String)
  | raised
  deriving Repr, DecidableEq

/-- Occurrence of `pat` as a contiguous sublist of `hay`. -/
def listContainsSub (pat : List Char) : List Char → Bool
  | [] => pat.isEmpty
  | c :: cs => pat.isPrefixOf (c :: cs) || listContainsSub pat cs

/-- Substring test, modelling the Python `in` operator on strings. -/
def strContainsSub (hay pat : String) : Bool :=
  listContainsSub pat.data hay.data

/-- error_msg computation at downloader.py:483-490. -/
def errorMsgOf (stderrS stdoutS : String) : String :=
  if stderrS ≠ "" then stderrS.take 150
  else if stdoutS ≠ "" then stdoutS.take 150
  else "Erro desconhecido"

/-- Expired or invalid URL signature (downloader.py:492). -/
def expiredSig (msg : String) : Bool :=
  strContainsSub msg "Unrecognized URI" || strContainsSub msg "unsupported protocol"

/-- Resource-not-found signature (downloader.py:496). -/
def notFoundSig (msg : String) : Bool :=
  strContainsSub msg "No such file or directory" || strContainsSub msg "Not Found"

/-- Negation of the guard at downloader.py:377:
`not item['download_url'] or not item['download_url'].startswith('http')`
(a `None` or empty URL is falsy); `startswith` is modelled on the
character lists. -/
def urlOk : Option String → Bool
  | none => false
  | some u => "http".data.isPrefixOf u.data

/-- Code after the for-loop of `_download_with_retry`
(downloader.py:524-527): mark the item failed, defaulting `error` when no
(non-empty) message was recorded on the item. -/
def exhaustFail (r : Nat) (max_retries : Nat) (s : DMState) : DMState × Bool :=
  (s.setItem r (fun it =>
    { it with
      status := "failed"
      error := some (match it.error with
        | none => "Falhou após " ++ toString max_retries ++ " tentativas"
        | some e =>
          if e = "" then "Falhou após " ++ toString max_retries ++ " tentativas"
          else e) }),
   false)

/-- The retry for-loop of `_download_with_retry` (downloader.py:375-527)
from attempt index `attempt` on, consuming one `AttemptOutcome` per
executed attempt.  An invalid download URL burns the attempt
(downloader.py:377-380); an observed stop terminates the process and
returns `False` with no item change (downloader.py:436-448); success sets
`completed` and the measured size (downloader.py:469-478); the expired-URL
signature records the error and returns immediately (downloader.py:492-495);
the not-found signature records the error and retries after a fixed delay,
incrementing `download_retry_count` while attempts remain
(downloader.py:496-503); any other error retries with backoff, also
incrementing the counter (downloader.py:504-513); a move failure or an
exception burns the attempt without touching the item
(downloader.py:479-481, 515-522). -/
def download_loop (r max_retries now : Nat) :
    List AttemptOutcome → Nat → DMState → DMState × Bool
  | [], _attempt, s => exhaustFail r max_retries s
  | o :: rest, attempt, s =>
    if attempt < max_retries then
      if urlOk (s.items r).download_url = false then
        download_loop r max_retries now rest (attempt + 1) s
      else
        match o with
        | .stop => (s, false)
        | .ok fs =>
          (s.setItem r (fun it => { it with status := "completed", file_size := fs }),
           true)
        | .okMoveFail => download_loop r max_retries now rest (attempt + 1) s
        | .raised => download_loop r max_retries now rest (attempt + 1) s
        | .err se so =>
          let msg := errorMsgOf se so
          if expiredSig msg then
            (s.setItem r (fun it => { it with error := some "URL inválida/Expirada" }),
             false)
          else if notFoundSig msg then
            let s1 := s.setItem r (fun it => { it with error := some "Arquivo não encontrado" })
            if attempt < max_retries - 1 then
              download_loop r max_retries now rest (attempt + 1)
                (s1.setItem r (fun it =>
                  { it with
                    download_retry_count := it.download_retry_count + 1
                    last_retry_time := now }))
            else exhaustFail r max_retries s1
          else
            if attempt < max_retries - 1 then
              download_loop r max_retries now rest (attempt + 1)
                (s.setItem r (fun it =>
                  { it with
                    download_retry_count := it.download_retry_count + 1
                    last_retry_time := now }))
            else exhaustFail r max_retries s
    else exhaustFail r max_retries s

/-- download_with_retry: `_download_with_retry` (downloader.py:355-527).
`aria2Found` is whether `_find_aria2` located the transfer tool; when it
did not, the item is marked failed and appended to `failed_list` right
here (downloader.py:357-361). -/
def download_with_retry (s : DMState) (r : Nat) (aria2Found : Bool) (now : Nat)
    (outs : List AttemptOutcome) (max_retries : Nat) : DMState × Bool :=
  if aria2Found = false then
    let s1 := s.setItem r (fun it =>
      { it with status := "failed", error := some "aria2c não encontrado" })
    ({ s1 with failed_list := s1.failed_list ++ [r] }, false)
  else
    download_loop r max_retries now outs 0 s

/-- Pool-size configuration read from `core.config` by the orchestrator. -/
structure Config where
  max_downloads : Nat
  max_links : Nat
  quality : String
  deriving Repr, DecidableEq

/-- download_worker: `_download_worker` (downloader.py:529-556).  Marks
the item `downloading`, runs `download_with_retry` with `max_retries = 5`,
then moves the item from `downloading` to `completed_list` or
`failed_list` according to the returned flag, and finally tops up the
ready queue from pending when the run is neither stopped nor paused. -/
def download_worker (s : DMState) (cfg : Config) (r : Nat) (aria2Found : Bool)
    (now : Nat) (outs : List AttemptOutcome) (genOuts : List ResolveOutcome) :
    DMState :=
  let s1 := s.setItem r (fun it => { it with status := "downloading" })
  let s2 := { s1 with downloading := s1.downloading ++ [r] }
  let res := download_with_retry s2 r aria2Found now outs 5
  let s3 := res.1
  let s4 :=
    if res.2 then
      { s3 with
        downloading := s3.downloading.erase r
        completed_list := s3.completed_list ++ [r] }
    else
      { s3 with
        downloading := s3.downloading.erase r
        failed_list := s3.failed_list ++ [r] }
  if !s4.pending_queue.isEmpty && !s4.stopped && !s4.paused then
    let links_needed := cfg.max_downloads - (s4.downloading.length + s4.download_queue.length)
    if links_needed > 0 then generate_additional_links s4 links_needed now genOuts
    else s4
  else s4

/-- The persisted state document written by `save_database`
(downloader.py:671-686): six item lists keyed by stage name. -/
structure SavedDoc where
  pending : List Item
  processing : List Item
  download_ready : List Item
  downloading : List Item
  completed : List Item
  failed : List Item
  deriving Repr, DecidableEq

/-- load_database (downloader.py:688-701): each persisted list is
assigned verbatim to the corresponding queue attribute.  Fresh references
are allocated for the deserialized dicts in concatenation order. -/
def load_database (s : DMState) (doc : SavedDoc) : DMState :=
  let all := doc.pending ++ doc.processing ++ doc.download_ready ++
    doc.downloading ++ doc.completed ++ doc.failed
  let n0 := doc.pending.length
  let n1 := n0 + doc.processing.length
  let n2 := n1 + doc.download_ready.length
  let n3 := n2 + doc.downloading.length
  let n4 := n3 + doc.completed.length
  { s with
    pending_queue := List.range n0
    processing_queue := (List.range doc.processing.length).map (· + n0)
    download_queue := (List.range doc.download_ready.length).map (· + n1)
    downloading := (List.range doc.downloading.length).map (· + n2)
    completed_list := (List.range doc.completed.length).map (· + n3)
    failed_list := (List.range doc.failed.length).map (· + n4)
    items := fun q => all.getD q default
    next_ref := all.length }

/-- Longest prefix of decimal digits and the remainder, modelling a
greedy `\d+` (Python `re` on `str` also accepts non-ASCII digits; the
diagnostic text scanned here is ASCII aria2c output). -/
def spanDigits : List Char → List Char × List Char
  | [] => ([], [])
  | c :: cs =>
    if c.isDigit then
      let p := spanDigits cs
      (c :: p.1, p.2)
    else ([], c :: cs)

/-- A Python `\s` whitespace character (ASCII range). -/
def isPySpace (c : Char) : Bool :=
  c = ' ' || c = '\t' || c = '\n' || c = '\r' || c = '\x0b' || c = '\x0c'

/-- Attempt of the regex `\((\d+)%\)` (downloader.py:134) at the start of
the text; returns the captured digit group. -/
def matchParenPct : List Char → Option (List Char)
  | [] => none
  | c :: rest =>
    if c = '(' then
      let ds := (spanDigits rest).1
      match (spanDigits rest).2 with
      | q1 :: q2 :: _ =>
        if ds ≠ [] ∧ q1 = '%' ∧ q2 = ')' then some ds else none
      | _ => none
    else none

/-- Attempt of the regex `(\d+)%\s+` (downloader.py:139) at the start of
the text. -/
def matchTrailPct (cs : List Char) : Option (List Char) :=
  let ds := (spanDigits cs).1
  match (spanDigits cs).2 with
  | q1 :: q2 :: _ =>
    if ds ≠ [] ∧ q1 = '%' ∧ isPySpace q2 then some ds else none
  | _ => none

/-- Attempt of the regex `(\d+\.?\d?)%` (downloader.py:144) at the start
of the text.  Returns the integer digits of the captured group: the code
converts the group with `int(float(...))`, which truncates the optional
fractional digit away.  Backtracking into the greedy `\d+` can never
produce a match that maximal munch misses, because after giving a digit
back the optional `\.?` cannot match and the optional `\d?` re-consumes
it, so every backtracked attempt re-checks `%` at a position the greedy
attempt already checked. -/
def matchBarePct (cs : List Char) : Option (List Char) :=
  let ds := (spanDigits cs).1
  if ds = [] then none
  else
    match (spanDigits cs).2 with
    | [] => none
    | q1 :: r2 =>
      if q1 = '%' then some ds
      else if q1 = '.' then
        match r2 with
        | [] => none
        | d :: r3 =>
          if d.isDigit then
            match r3 with
            | [] => none
            | q3 :: _ => if q3 = '%' then some ds else none
          else if d = '%' then some ds
          else none
      else none

/-- Leftmost match of `matchParenPct`, modelling `re.search`. -/
def searchParenPct : List Char → Option (List Char)
  | [] => none
  | c :: cs =>
    match matchParenPct (c :: cs) with
    | some ds => some ds
    | none => searchParenPct cs

/-- Leftmost match of `matchTrailPct`, modelling `re.search`. -/
def searchTrailPct : List Char → Option (List Char)
  | [] => none
  | c :: cs =>
    match matchTrailPct (c :: cs) with
    | some ds => some ds
    | none => searchTrailPct cs

/-- Leftmost match of `matchBarePct`, modelling `re.search`. -/
def searchBarePct : List Char → Option (List Char)
  | [] => none
  | c :: cs =>
    match matchBarePct (c :: cs) with
    | some ds => some ds
    | none => searchBarePct cs

/-- Numeric value of a string of decimal digits. -/
def natOfDigits (ds : List Char) : Nat :=
  ds.foldl (fun acc c => 10 * acc + (c.toNat - '0'.toNat)) 0

/-- parse_aria2_progress: `_parse_aria2_progress` (downloader.py:130-152).
The three pattern matchers cascade, first match wins; falsy (empty) input
and unmatched text yield 0. -/
def parse_aria2_progress (output : String) : Nat :=
  if output = "" then 0
  else
    match searchParenPct output.data with
    | some ds => natOfDigits ds
    | none =>
      match searchTrailPct output.data with
      | some ds => natOfDigits ds
      | none =>
        match searchBarePct output.data with
        | some ds => natOfDigits ds
        | none => 0

/-- Inductive invariant for the resolution retry cap: references in
`pending_queue` are distinct allocated references to items that still
have retry budget (at most 2 recorded failures, so one more failure
reaches at most 3), and no item anywhere has more than 3 recorded
resolution failures. -/
def retryInv (s : DMState) : Prop :=
  s.pending_queue.Nodup ∧
  (∀ r ∈ s.pending_queue, r < s.next_ref) ∧
  (∀ r ∈ s.pending_queue, (s.items r).retry_count ≤ 2) ∧
  (∀ q : Nat, (s.items q).retry_count ≤ 3)

/-- A manager state holding exactly one freshly enqueued item
(`add_to_queue` at millisecond 1000). -/
def sAdd1 : DMState := (add_to_queue initState 1000 "https://youtu.be/a" "480p").1

/-- An item that finished resolution and sits in the ready queue. -/
def itemReady : Item :=
  { id := 1000
    youtube_url := "https://youtu.be/x"
    quality := "480p"
    title := "video"
    status := "ready_to_download"
    download_url := some "https://cdn.example/file.mp4"
    file_size := "10 MB"
    error := none
    retry_count := 0
    download_retry_count := 0
    last_retry_time := 0
    last_attempt := 0 }

/-- A manager state whose only item is `itemReady`, claimed by a transfer
worker next; the pending queue is empty. -/
def sReady : DMState :=
  { pending_queue := []
    processing_queue := []
    download_queue := [0]
    downloading := []
    completed_list := []
    failed_list := []
    items := fun r => if r = 0 then itemReady else default
    next_ref := 1
    stopped := false
    paused := false }

/-- `sReady` after `stop_generation` flipped the stop flag. -/
def sStop0 : DMState := { sReady with stopped := true }

/-- A small orchestrator configuration. -/
def cfg0 : Config := { max_downloads := 3, max_links := 3, quality := "480p" }

/-- A persisted document from a run that crashed with one item frozen
mid-resolution and one frozen mid-transfer. -/
def doc1 : SavedDoc :=
  { pending := []
    processing := [{ itemReady with status := "processing", download_url := none }]
    download_ready := []
    downloading := [{ itemReady with status := "downloading" }]
    completed := []
    failed := [] }

/-! ## Helper lemmas -/

theorem setItem_items (s : DMState) (r : Nat) (f : Item → Item) (q : Nat) :
    (s.setItem r f).items q = if q = r then f (s.items r) else s.items q := rfl

theorem mem_spanDigits_snd : ∀ (cs : List Char) (c : Char),
    c ∈ (spanDigits cs).2 → c ∈ cs := by
  intro cs
  induction cs with
  | nil => simp [spanDigits]
  | cons a as ih =>
    intro c h
    by_cases ha : a.isDigit
    · simp only [spanDigits, ha, if_true] at h
      exact List.mem_cons_of_mem _ (ih c h)
    · simp only [spanDigits, ha, if_false] at h
      exact h

theorem matchParenPct_pct : ∀ (cs ds : List Char),
    matchParenPct cs = some ds → '%' ∈ cs := by
  intro cs ds h
  match cs with
  | [] => simp [matchParenPct] at h
  | c :: rest =>
    by_cases hc : c = '('
    · rcases h2 : (spanDigits rest).2 with _ | ⟨q1, tl1⟩
      · simp [matchParenPct, hc, h2] at h
      · rcases tl1 with _ | ⟨q2, tl2⟩
        · simp [matchParenPct, hc, h2] at h
        · simp only [matchParenPct, hc, h2, if_true] at h
          by_cases hg : (spanDigits rest).1 ≠ [] ∧ q1 = '%' ∧ q2 = ')'
          · refine List.mem_cons_of_mem _ (mem_spanDigits_snd rest '%' ?_)
            rw [h2, hg.2.1]
            exact List.mem_cons_self _ _
          · simp [hg] at h
    · simp [matchParenPct, hc] at h

theorem matchTrailPct_pct : ∀ (cs ds : List Char),
    matchTrailPct cs = some ds → '%' ∈ cs := by
  intro cs ds h
  rcases h2 : (spanDigits cs).2 with _ | ⟨q1, tl1⟩
  · simp [matchTrailPct, h2] at h
  · rcases tl1 with _ | ⟨q2, tl2⟩
    · simp [matchTrailPct, h2] at h
    · simp only [matchTrailPct, h2] at h
      by_cases hg : (spanDigits cs).1 ≠ [] ∧ q1 = '%' ∧ isPySpace q2 = true
      · refine mem_spanDigits_snd cs '%' ?_
        rw [h2, hg.2.1]
        exact List.mem_cons_self _ _
      · simp [hg] at h

theorem matchBarePct_pct : ∀ (cs ds : List Char),
    matchBarePct cs = some ds → '%' ∈ cs := by
  intro cs ds h
  by_cases hds : (spanDigits cs).1 = []
  · simp [matchBarePct, hds] at h
  · rcases h2 : (spanDigits cs).2 with _ | ⟨q1, r2⟩
    · simp [matchBarePct, hds, h2] at h
    · by_cases h1 : q1 = '%'
      · refine mem_spanDigits_snd cs '%' ?_
        rw [h2, h1]
        exact List.mem_cons_self _ _
      · by_cases hdot : q1 = '.'
        · rcases r2 with _ | ⟨d, r3⟩
          · simp [matchBarePct, hds, h2, h1, hdot] at h
          · by_cases hd : d.isDigit
            · rcases r3 with _ | ⟨q3, tl3⟩
              · simp [matchBarePct, hds, h2, h1, hdot, hd] at h
              · by_cases h3 : q3 = '%'
                · refine mem_spanDigits_snd cs '%' ?_
                  rw [h2, h3]
                  exact List.mem_cons_of_mem _ (List.mem_cons_of_mem _
                    (List.mem_cons_self _ _))
                · simp [matchBarePct, hds, h2, h1, hdot, hd, h3] at h
            · by_cases hdp : d = '%'
              · refine mem_spanDigits_snd cs '%' ?_
                rw [h2, hdp]
                exact List.mem_cons_of_mem _ (List.mem_cons_self _ _)
              · simp [matchBarePct, hds, h2, h1, hdot, hd, hdp] at h
        · simp [matchBarePct, hds, h2, h1, hdot] at h

theorem searchParenPct_eq_none : ∀ (cs : List Char), '%' ∉ cs →
    searchParenPct cs = none := by
  intro cs
  induction cs with
  | nil => intro _; rfl
  | cons c cs ih =>
    intro h
    have h1 : '%' ∉ cs := fun hm => h (List.mem_cons_of_mem _ hm)
    cases hm : matchParenPct (c :: cs) with
    | some ds => exact absurd (matchParenPct_pct _ _ hm) h
    | none => simp [searchParenPct, hm, ih h1]

theorem searchTrailPct_eq_none : ∀ (cs : List Char), '%' ∉ cs →
    searchTrailPct cs = none := by
  intro cs
  induction cs with
  | nil => intro _; rfl
  | cons c cs ih =>
    intro h
    have h1 : '%' ∉ cs := fun hm => h (List.mem_cons_of_mem _ hm)
    cases hm : matchTrailPct (c :: cs) with
    | some ds => exact absurd (matchTrailPct_pct _ _ hm) h
    | none => simp [searchTrailPct, hm, ih h1]

theorem searchBarePct_eq_none : ∀ (cs : List Char), '%' ∉ cs →
    searchBarePct cs = none := by
  intro cs
  induction cs with
  | nil => intro _; rfl
  | cons c cs ih =>
    intro h
    have h1 : '%' ∉ cs := fun hm => h (List.mem_cons_of_mem _ hm)
    cases hm : matchBarePct (c :: cs) with
    | some ds => exact absurd (matchBarePct_pct _ _ hm) h
    | none => simp [searchBarePct, hm, ih h1]

/-! ## Claim theorems -/

/-- Claim C7: `parse_aria2_progress` applies its pattern matchers in
cascade with first match winning and returns 45 for "(45%) ", 78 for
"78% ", 12 for "12.5%", and 0 for any input containing no percentage
pattern (in particular any text without a percent sign, and the empty
string). -/
theorem c7_progress_parser_cases :
    parse_aria2_progress "(45%) " = 45 ∧
    parse_aria2_progress "78% " = 78 ∧
    parse_aria2_progress "12.5%" = 12 ∧
    parse_aria2_progress "" = 0 ∧
    ∀ s : String, '%' ∉ s.data → parse_aria2_progress s = 0 := by
  refine ⟨by decide, by decide, by decide, by decide, ?_⟩
  intro s hs
  unfold parse_aria2_progress
  by_cases he : s = ""
  · simp [he]
  · simp [he, searchParenPct_eq_none s.data hs, searchTrailPct_eq_none s.data hs,
      searchBarePct_eq_none s.data hs]

theorem c7_progress_parser_cases_witness :
    parse_aria2_progress "download at 55 percent" = 0 :=
  c7_progress_parser_cases.2.2.2.2 "download at 55 percent" (by decide)

/-- Claim C1 (violated by the code): after a failed resolution attempt
that is requeued, the item must sit in exactly one stage queue and its
status must name that queue.  In the state reached by enqueueing one item
and letting its first resolution attempt fail, the item is a member of
both `pending_queue` and `processing_queue` (downloader.py:225 re-inserts
into pending without removing from processing), with status
"processing"; and after a download aborted by stop, the item sits in
`failed_list` while its status still says "downloading"
(downloader.py:436-440 returns False without touching the status,
downloader.py:542-544 then files the item as failed). -/
theorem c1_status_queue_agreement_fails :
    (generator_worker_step sAdd1 2000 .failure).pending_queue = [0] ∧
    (generator_worker_step sAdd1 2000 .failure).processing_queue = [0] ∧
    ((generator_worker_step sAdd1 2000 .failure).items 0).status = "processing" ∧
    (download_worker sStop0 cfg0 0 true 5000 [.stop] []).failed_list = [0] ∧
    ((download_worker sStop0 cfg0 0 true 5000 [.stop] []).items 0).status =
      "downloading" := by
  decide

/-- Claim C2 (violated by the code): the sum of the six queue lengths
must be invariant under transitions that are not an add or a clear.  The
resolution-failure requeue grows it from 1 to 2, because the item ends up
referenced from both `pending_queue` and `processing_queue`. -/
theorem c2_count_conservation_fails :
    sAdd1.totalCount = 1 ∧
    (generator_worker_step sAdd1 2000 .failure).totalCount = 2 := by
  decide

/-- Claim C10 (violated by the code): each stage queue must hold an item
at most once.  When the transfer tool binary is missing, the item is
appended to `failed_list` by `download_with_retry` (downloader.py:360) and
then again by `download_worker` (downloader.py:544), so it appears twice. -/
theorem c10_missing_aria2_double_append :
    (download_worker sReady cfg0 0 false 5000 [] []).failed_list = [0, 0] ∧
    ((download_worker sReady cfg0 0 false 5000 [] []).items 0).status = "failed" ∧
    ((download_worker sReady cfg0 0 false 5000 [] []).items 0).error =
      some "aria2c não encontrado" := by
  decide

/-- Claim C9 is false as stated: two `add_to_queue` calls within the same
millisecond return the same identifier, because the id is derived solely
from `int(time.time()*1000)` (downloader.py:86). -/
theorem c9_same_millisecond_id_collision :
    (add_to_queue initState 1000 "https://youtu.be/a" "480p").2 =
      (add_to_queue (add_to_queue initState 1000 "https://youtu.be/a" "480p").1
        1000 "https://youtu.be/b" "480p").2 := by
  decide

/-- Claim C9 as amended: identifiers assigned by `add_to_queue` are
distinct whenever the millisecond timestamps of the two calls are
distinct (and only then; within one millisecond they collide). -/
theorem c9_distinct_ms_distinct_ids (s s' : DMState) (t t' : Nat)
    (u u' q q' : String) (h : t ≠ t') :
    (add_to_queue s t u q).2 ≠ (add_to_queue s' t' u' q').2 := by
  simpa [add_to_queue] using h

theorem c9_distinct_ms_distinct_ids_witness :
    (add_to_queue initState 1000 "https://youtu.be/a" "480p").2 ≠
      (add_to_queue initState 1001 "https://youtu.be/b" "480p").2 :=
  c9_distinct_ms_distinct_ids initState initState 1000 1001
    "https://youtu.be/a" "https://youtu.be/b" "480p" "480p" (by decide)

/-- Claim C5 is false as stated: the claim says a stop observed
mid-transfer leaves the item out of both `completed_list` and
`failed_list`, but `download_worker` treats the `False` returned by the
aborted `download_with_retry` as a failure and files the item in
`failed_list` (downloader.py:542-544). -/
theorem c5_stop_adds_to_failed_list :
    0 ∈ (download_worker sStop0 cfg0 0 true 5000 [.stop] []).failed_list := by
  decide

/-- Claim C5 as amended: when the stop flag is observed during an
in-flight transfer, the in-flight attempt is discarded and
`download_with_retry` returns `False` without touching the item or the
queues (no success or failure is recorded there); but the caller
`download_worker` then interprets the `False` as a failure and moves the
item from `downloading` into `failed_list`, leaving its status field at
"downloading". -/
theorem c5_stop_discard_then_worker_files_failure :
    (∀ (s : DMState) (r now : Nat) (rest : List AttemptOutcome) (k : Nat),
      k < 5 → urlOk ((s.items r).download_url) = true →
      download_loop r 5 now (.stop :: rest) k s = (s, false)) ∧
    (download_worker sStop0 cfg0 0 true 5000 [.stop] []).downloading = [] ∧
    (download_worker sStop0 cfg0 0 true 5000 [.stop] []).completed_list = [] ∧
    (download_worker sStop0 cfg0 0 true 5000 [.stop] []).failed_list = [0] ∧
    ((download_worker sStop0 cfg0 0 true 5000 [.stop] []).items 0).status =
      "downloading" ∧
    ((download_worker sStop0 cfg0 0 true 5000 [.stop] []).items 0).error = none := by
  refine ⟨?_, by decide, by decide, by decide, by decide, by decide⟩
  intro s r now rest k hk hu
  simp [download_loop, hk, hu]

theorem c5_stop_discard_witness :
    download_loop 0 5 5000 [.stop] 0 sReady = (sReady, false) :=
  c5_stop_discard_then_worker_files_failure.1 sReady 0 5000 [] 0 (by decide)
    (by decide)

/-- Claim C4: when a transfer failure diagnostic matches the
expired/invalid-URL signature, the download aborts on that attempt (the
result does not depend on any outcomes prepared for later attempts, so no
further attempt is made), the error is recorded on the item, and
`download_worker` then files the item in `failed_list`. -/
theorem c4_expired_url_aborts_immediately :
    (∀ (s : DMState) (r now : Nat) (se so : String) (rest : List AttemptOutcome)
      (k : Nat),
      k < 5 → urlOk ((s.items r).download_url) = true →
      expiredSig (errorMsgOf se so) = true →
      download_loop r 5 now (.err se so :: rest) k s =
        (s.setItem r (fun it => { it with error := some "URL inválida/Expirada" }),
         false)) ∧
    (∀ (s : DMState) (cfg : Config) (r now : Nat) (se so : String)
      (rest : List AttemptOutcome) (genOuts : List ResolveOutcome),
      urlOk ((s.items r).download_url) = true →
      expiredSig (errorMsgOf se so) = true →
      s.pending_queue = [] →
      r ∉ s.downloading →
      (download_worker s cfg r true now (.err se so :: rest) genOuts).failed_list =
        s.failed_list ++ [r] ∧
      (download_worker s cfg r true now (.err se so :: rest) genOuts).downloading =
        s.downloading ∧
      ((download_worker s cfg r true now (.err se so :: rest) genOuts).items r).error =
        some "URL inválida/Expirada") := by
  constructor
  · intro s r now se so rest k hk hu hexp
    simp [download_loop, hk, hu, hexp]
  · intro s cfg r now se so rest genOuts hu hexp hp hd
    have hgen : ∀ (t : DMState), urlOk ((t.items r).download_url) = true →
        download_loop r 5 now (.err se so :: rest) 0 t =
          (t.setItem r (fun it => { it with error := some "URL inválida/Expirada" }),
           false) := by
      intro t hu'
      simp [download_loop, hu', hexp]
    simp only [download_worker, download_with_retry]
    rw [hgen _ (by simp [DMState.setItem, hu])]
    simp [DMState.setItem, hp, hd, List.erase_append_right, List.erase_cons_head]

theorem c4_expired_url_aborts_immediately_witness :
    download_loop 0 5 5000 [.err "aria2c: Unrecognized URI" "", .ok "9 MB"] 0 sReady =
      (sReady.setItem 0
        (fun it => { it with error := some "URL inválida/Expirada" }), false) ∧
    (download_worker sReady cfg0 0 true 5000
        [.err "aria2c: Unrecognized URI" ""] []).failed_list = [] ++ [0] :=
  ⟨c4_expired_url_aborts_immediately.1 sReady 0 5000 "aria2c: Unrecognized URI" ""
      [.ok "9 MB"] 0 (by decide) (by decide) (by decide),
   (c4_expired_url_aborts_immediately.2 sReady cfg0 0 5000
      "aria2c: Unrecognized URI" "" [] [] (by decide) (by decide) rfl
      (by decide)).1⟩

/-- Claim C8 is false as stated: an item that suffered a retried
"not found" transfer failure and then succeeded ends up `completed` in
`completed_list` while still carrying the error recorded by the failed
attempt (downloader.py:498 sets it; no code path clears it on success). -/
theorem c8_completed_item_keeps_error :
    (download_worker sReady cfg0 0 true 5000
        [.err "404 Not Found" "", .ok "12.34 MB"] []).completed_list = [0] ∧
    ((download_worker sReady cfg0 0 true 5000
        [.err "404 Not Found" "", .ok "12.34 MB"] []).items 0).status =
      "completed" ∧
    ((download_worker sReady cfg0 0 true 5000
        [.err "404 Not Found" "", .ok "12.34 MB"] []).items 0).error =
      some "Arquivo não encontrado" := by
  decide

/-- Claim C8 as amended: `error` is written when a failure is diagnosed
and is never cleared by a later successful attempt, so a non-empty
`error` does not imply status "failed"; in particular a transfer that
fails with "not found" and then succeeds leaves the item `completed` with
the not-found error still recorded. -/
theorem c8_error_survives_success :
    ∀ (s : DMState) (r now : Nat) (fs : String) (rest : List AttemptOutcome),
      urlOk ((s.items r).download_url) = true →
      (download_loop r 5 now (.err "404 Not Found" "" :: .ok fs :: rest) 0 s).2 =
        true ∧
      ((download_loop r 5 now (.err "404 Not Found" "" :: .ok fs :: rest) 0
          s).1.items r).status = "completed" ∧
      ((download_loop r 5 now (.err "404 Not Found" "" :: .ok fs :: rest) 0
          s).1.items r).error = some "Arquivo não encontrado" := by
  intro s r now fs rest hu
  have h1 : expiredSig (errorMsgOf "404 Not Found" "") = false := by decide
  have h2 : notFoundSig (errorMsgOf "404 Not Found" "") = true := by decide
  refine ⟨?_, ?_, ?_⟩ <;> simp [download_loop, hu, h1, h2, DMState.setItem]

theorem c8_error_survives_success_witness :
    ((download_loop 0 5 5000 [.err "404 Not Found" "", .ok "12.34 MB"] 0
        sReady).1.items 0).status = "completed" ∧
    ((download_loop 0 5 5000 [.err "404 Not Found" "", .ok "12.34 MB"] 0
        sReady).1.items 0).error = some "Arquivo não encontrado" :=
  ⟨(c8_error_survives_success sReady 0 5000 "12.34 MB" [] (by decide)).2.1,
   (c8_error_survives_success sReady 0 5000 "12.34 MB" [] (by decide)).2.2⟩

theorem getD_middle (pre mid post : List Item) (i k : Nat) (hk : k = pre.length)
    (h : i < mid.length) :
    (pre ++ (mid ++ post)).getD (i + k) default = mid.getD i default := by
  subst hk
  rw [List.getD_append_right _ _ _ _ (by omega), Nat.add_sub_cancel,
    List.getD_append _ _ _ _ h]

theorem range_offset_map_getD (all mid : List Item) (k : Nat)
    (h : ∀ i, i < mid.length → all.getD (i + k) default = mid.getD i default) :
    ((List.range mid.length).map (· + k)).map (fun q => all.getD q default) =
      mid := by
  refine List.ext_getElem (by simp) ?_
  intro i h1 h2
  simp only [List.map_map, List.getElem_map, List.getElem_range, Function.comp]
  rw [h i (by simpa using h2)]
  exact List.getD_eq_getElem _ _ _

/-- Claim C6 is false as stated: after `load_database` of a document with
one item frozen mid-resolution and one frozen mid-transfer, those items
sit in `processing_queue` and `downloading` respectively -- nothing
re-admits them to `pending_queue` (downloader.py:693-698 assigns each
persisted list verbatim). -/
theorem c6_frozen_items_not_readmitted :
    (load_database initState doc1).pending_queue = [] ∧
    (load_database initState doc1).processing_queue = [0] ∧
    (load_database initState doc1).downloading = [1] ∧
    ((load_database initState doc1).items 0).status = "processing" ∧
    ((load_database initState doc1).items 1).status = "downloading" := by
  decide

/-- Claim C6 as amended: `load_database` assigns each persisted stage
list verbatim to the corresponding queue: the pending queue receives
exactly the persisted pending items, and items persisted as mid-resolution
or mid-transfer are loaded into `processing_queue` and `downloading`
(not re-admitted to pending). -/
theorem c6_load_assigns_lists_verbatim (s : DMState) (doc : SavedDoc) :
    ((load_database s doc).pending_queue.map (load_database s doc).items) =
      doc.pending ∧
    ((load_database s doc).processing_queue.map (load_database s doc).items) =
      doc.processing ∧
    ((load_database s doc).download_queue.map (load_database s doc).items) =
      doc.download_ready ∧
    ((load_database s doc).downloading.map (load_database s doc).items) =
      doc.downloading ∧
    ((load_database s doc).completed_list.map (load_database s doc).items) =
      doc.completed ∧
    ((load_database s doc).failed_list.map (load_database s doc).items) =
      doc.failed := by
  refine ⟨?_, ?_, ?_, ?_, ?_, ?_⟩
  · simp only [load_database]
    rw [show List.range doc.pending.length =
        (List.range doc.pending.length).map (· + 0) by simp]
    refine range_offset_map_getD _ _ _ ?_
    intro i hi
    rw [show doc.pending ++ doc.processing ++ doc.download_ready ++
        doc.downloading ++ doc.completed ++ doc.failed =
        [] ++ (doc.pending ++ (doc.processing ++ (doc.download_ready ++
        (doc.downloading ++ (doc.completed ++ doc.failed))))) by
      simp [List.append_assoc]]
    exact getD_middle [] doc.pending _ i 0 rfl hi
  · simp only [load_database]
    refine range_offset_map_getD _ _ _ ?_
    intro i hi
    rw [show doc.pending ++ doc.processing ++ doc.download_ready ++
        doc.downloading ++ doc.completed ++ doc.failed =
        doc.pending ++ (doc.processing ++ (doc.download_ready ++
        (doc.downloading ++ (doc.completed ++ doc.failed)))) by
      simp [List.append_assoc]]
    exact getD_middle doc.pending doc.processing _ i _ rfl hi
  · simp only [load_database]
    refine range_offset_map_getD _ _ _ ?_
    intro i hi
    rw [show doc.pending ++ doc.processing ++ doc.download_ready ++
        doc.downloading ++ doc.completed ++ doc.failed =
        (doc.pending ++ doc.processing) ++ (doc.download_ready ++
        (doc.downloading ++ (doc.completed ++ doc.failed))) by
      simp [List.append_assoc]]
    exact getD_middle _ doc.download_ready _ i _ (by simp) hi
  · simp only [load_database]
    refine range_offset_map_getD _ _ _ ?_
    intro i hi
    rw [show doc.pending ++ doc.processing ++ doc.download_ready ++
        doc.downloading ++ doc.completed ++ doc.failed =
        (doc.pending ++ (doc.processing ++ doc.download_ready)) ++
        (doc.downloading ++ (doc.completed ++ doc.failed)) by
      simp [List.append_assoc]]
    exact getD_middle _ doc.downloading _ i _ (by simp [Nat.add_assoc]) hi
  · simp only [load_database]
    refine range_offset_map_getD _ _ _ ?_
    intro i hi
    rw [show doc.pending ++ doc.processing ++ doc.download_ready ++
        doc.downloading ++ doc.completed ++ doc.failed =
        (doc.pending ++ (doc.processing ++ (doc.download_ready ++
        doc.downloading))) ++ (doc.completed ++ doc.failed) by
      simp [List.append_assoc]]
    exact getD_middle _ doc.completed _ i _ (by simp [Nat.add_assoc]) hi
  · simp only [load_database]
    refine range_offset_map_getD _ _ _ ?_
    intro i hi
    rw [show doc.pending ++ doc.processing ++ doc.download_ready ++
        doc.downloading ++ doc.completed ++ doc.failed =
        (doc.pending ++ (doc.processing ++ (doc.download_ready ++
        (doc.downloading ++ doc.completed)))) ++ (doc.failed ++ []) by
      simp [List.append_assoc]]
    exact getD_middle _ doc.failed [] i _ (by simp [Nat.add_assoc]) hi

theorem retryInv_generator_step (s : DMState) (now : Nat) (o : ResolveOutcome)
    (h : retryInv s) : retryInv (generator_worker_step s now o) := by
  obtain ⟨hnd, hlt, hle, hall⟩ := h
  rcases hpq : s.pending_queue with _ | ⟨r, rest⟩
  · simp only [generator_worker_step, hpq]
    exact ⟨hpq ▸ hnd, hpq ▸ hlt, hpq ▸ hle, hall⟩
  · have hndr : rest.Nodup := (List.nodup_cons.mp (hpq ▸ hnd)).2
    have hrnr : r ∉ rest := (List.nodup_cons.mp (hpq ▸ hnd)).1
    have hler : (s.items r).retry_count ≤ 2 := hle r (hpq ▸ List.mem_cons_self r rest)
    have hltr : r < s.next_ref := hlt r (hpq ▸ List.mem_cons_self r rest)
    by_cases hstop : s.stopped = true
    · simp only [generator_worker_step, hpq, hstop, if_true]
      exact ⟨hpq ▸ hnd, hpq ▸ hlt, hpq ▸ hle, hall⟩
    · by_cases hcool : (s.items r).last_attempt + 30 > now
      · simp only [generator_worker_step, hpq, hstop, hcool, if_true, if_false,
          Bool.false_eq_true, reduceIte]
        refine ⟨?_, ?_, ?_, hall⟩
        · simp [List.nodup_append, hndr, hrnr]
        · intro q hq
          rcases List.mem_append.mp hq with hq | hq
          · exact hlt q (hpq ▸ List.mem_cons_of_mem r hq)
          · simp at hq
            exact hq ▸ hltr
        · intro q hq
          rcases List.mem_append.mp hq with hq | hq
          · exact hle q (hpq ▸ List.mem_cons_of_mem r hq)
          · simp at hq
            exact hq ▸ hler
      · cases o with
        | success du ti fs =>
          simp only [generator_worker_step, hpq, hstop, hcool, if_false,
            Bool.false_eq_true, reduceIte, DMState.setItem]
          refine ⟨hndr, ?_, ?_, ?_⟩
          · intro q hq
            exact hlt q (hpq ▸ List.mem_cons_of_mem r hq)
          · intro q hq
            dsimp only
            by_cases hqr : q = r
            · simp [hqr]
            · simp only [hqr, if_false]
              exact hle q (hpq ▸ List.mem_cons_of_mem r hq)
          · intro q
            dsimp only
            by_cases hqr : q = r
            · simp [hqr]
            · simp only [hqr, if_false]
              exact hall q
        | failure =>
          simp only [generator_worker_step, hpq, hstop, hcool, if_false,
            Bool.false_eq_true, reduceIte, DMState.setItem]
          by_cases hcap : (s.items r).retry_count + 1 ≤ 2
          · simp only [reduceIte, hcap, if_true]
            refine ⟨?_, ?_, ?_, ?_⟩
            · exact hpq ▸ hnd
            · intro q hq
              rcases List.mem_cons.mp hq with hq | hq
              · exact hq ▸ hltr
              · exact hlt q (hpq ▸ List.mem_cons_of_mem r hq)
            · intro q hq
              dsimp only
              by_cases hqr : q = r
              · simp only [hqr, reduceIte]
                exact hcap
              · simp only [hqr, if_false]
                rcases List.mem_cons.mp hq with hq | hq
                · exact absurd hq hqr
                · exact hle q (hpq ▸ List.mem_cons_of_mem r hq)
            · intro q
              dsimp only
              by_cases hqr : q = r
              · simp only [hqr, reduceIte]
                omega
              · simp only [hqr, if_false]
                exact hall q
          · have hct : ((s.processing_queue ++ [r]).contains r) = true := by simp
            simp only [reduceIte, hcap, if_false, hct, if_true]
            refine ⟨hndr, ?_, ?_, ?_⟩
            · intro q hq
              exact hlt q (hpq ▸ List.mem_cons_of_mem r hq)
            · intro q hq
              dsimp only
              by_cases hqr : q = r
              · exact absurd (hqr ▸ hq) hrnr
              · simp only [hqr, if_false]
                exact hle q (hpq ▸ List.mem_cons_of_mem r hq)
            · intro q
              dsimp only
              by_cases hqr : q = r
              · simp only [hqr, reduceIte]
                omega
              · simp only [hqr, if_false]
                exact hall q
        | raised msg =>
          simp only [generator_worker_step, hpq, hstop, hcool, if_false,
            Bool.false_eq_true, reduceIte, DMState.setItem]
          have hct : ((s.processing_queue ++ [r]).contains r) = true := by simp
          simp only [hct, if_true]
          refine ⟨hndr, ?_, ?_, ?_⟩
          · intro q hq
            exact hlt q (hpq ▸ List.mem_cons_of_mem r hq)
          · intro q hq
            dsimp only
            by_cases hqr : q = r
            · exact absurd (hqr ▸ hq) hrnr
            · simp only [hqr, if_false]
              exact hle q (hpq ▸ List.mem_cons_of_mem r hq)
          · intro q
            dsimp only
            by_cases hqr : q = r
            · simp only [hqr, reduceIte]
              omega
            · simp only [hqr, if_false]
              exact hall q

theorem retryInv_add_to_queue (s : DMState) (now_ms : Nat) (u v : String)
    (h : retryInv s) : retryInv (add_to_queue s now_ms u v).1 := by
  obtain ⟨hnd, hlt, hle, hall⟩ := h
  unfold add_to_queue
  refine ⟨?_, ?_, ?_, ?_⟩
  · dsimp only
    rw [List.nodup_append]
    refine ⟨hnd, List.nodup_singleton _, ?_⟩
    intro a ha hb
    simp only [List.mem_singleton] at hb
    subst hb
    exact absurd (hlt _ ha) (lt_irrefl _)
  · intro t ht
    dsimp only at ht ⊢
    rcases List.mem_append.mp ht with ht | ht
    · exact Nat.lt_succ_of_lt (hlt t ht)
    · simp only [List.mem_singleton] at ht
      subst ht
      exact Nat.lt_succ_self _
  · intro t ht
    dsimp only at ht ⊢
    by_cases htr : t = s.next_ref
    · simp [htr]
    · simp only [htr, if_false]
      rcases List.mem_append.mp ht with ht | ht
      · exact hle t ht
      · simp only [List.mem_singleton] at ht
        exact absurd ht htr
  · intro t
    dsimp only
    by_cases htr : t = s.next_ref
    · simp [htr]
    · simp only [htr, if_false]
      exact hall t

theorem exhaustFail_retry_counts (r m : Nat) (s : DMState) (q : Nat) :
    ((exhaustFail r m s).1.items q).download_retry_count =
      (s.items q).download_retry_count := by
  by_cases hqr : q = r <;> simp [exhaustFail, DMState.setItem, hqr]


theorem download_loop_retry_bound (r m now : Nat) :
    ∀ (outs : List AttemptOutcome) (a : Nat) (s : DMState) (q : Nat),
      ((download_loop r m now outs a s).1.items q).download_retry_count ≤
        (s.items q).download_retry_count + (m - 1 - a) := by
  intro outs
  induction outs with
  | nil =>
    intro a s q
    simp [download_loop, exhaustFail_retry_counts]
  | cons o rest ih =>
    intro a s q
    simp only [download_loop]
    by_cases ha : a < m
    · rw [if_pos ha]
      by_cases hu : urlOk (s.items r).download_url = false
      · rw [if_pos hu]
        exact le_trans (ih (a + 1) s q) (by omega)
      · rw [if_neg hu]
        cases o with
        | stop => simp
        | ok fs => by_cases hqr : q = r <;> simp [DMState.setItem, hqr]
        | okMoveFail => exact le_trans (ih (a + 1) s q) (by omega)
        | raised => exact le_trans (ih (a + 1) s q) (by omega)
        | err se so =>
          dsimp only
          by_cases hexp : expiredSig (errorMsgOf se so) = true
          · rw [if_pos hexp]
            by_cases hqr : q = r <;> simp [DMState.setItem, hqr]
          · rw [if_neg hexp]
            by_cases hnf : notFoundSig (errorMsgOf se so) = true
            · rw [if_pos hnf]
              by_cases ha1 : a < m - 1
              · rw [if_pos ha1]
                refine le_trans (ih (a + 1) _ q) ?_
                by_cases hqr : q = r
                · subst hqr
                  simp only [DMState.setItem, reduceIte]
                  omega
                · simp only [DMState.setItem, hqr, if_false]
                  omega
              · rw [if_neg ha1, exhaustFail_retry_counts]
                by_cases hqr : q = r
                · subst hqr
                  simp only [DMState.setItem, reduceIte]
                  omega
                · simp only [DMState.setItem, hqr, if_false]
                  omega
            · rw [if_neg hnf]
              by_cases ha1 : a < m - 1
              · rw [if_pos ha1]
                refine le_trans (ih (a + 1) _ q) ?_
                by_cases hqr : q = r
                · subst hqr
                  simp only [DMState.setItem, reduceIte]
                  omega
                · simp only [DMState.setItem, hqr, if_false]
                  omega
              · rw [if_neg ha1, exhaustFail_retry_counts]
                omega
    · rw [if_neg ha, exhaustFail_retry_counts]
      omega

theorem download_with_retry_bound (s : DMState) (r : Nat) (a2 : Bool) (now : Nat)
    (outs : List AttemptOutcome) (h0 : (s.items r).download_retry_count = 0) :
    ((download_with_retry s r a2 now outs 5).1.items r).download_retry_count ≤ 5 := by
  cases a2 with
  | false => simp [download_with_retry, DMState.setItem, h0]
  | true =>
    have hb := download_loop_retry_bound r 5 now outs 0 s r
    simp only [download_with_retry, Bool.true_eq_false, if_false, reduceIte]
    omega

theorem generator_failure_behavior (s : DMState) (r : Nat) (rest : List Nat)
    (now : Nat) (hpq : s.pending_queue = r :: rest) (hstop : s.stopped = false)
    (hcool : (s.items r).last_attempt + 30 ≤ now) :
    ((generator_worker_step s now .failure).items r).retry_count =
      (s.items r).retry_count + 1 ∧
    ((s.items r).retry_count + 1 ≤ 2 →
      (generator_worker_step s now .failure).pending_queue = r :: rest) ∧
    (¬ (s.items r).retry_count + 1 ≤ 2 →
      r ∈ (generator_worker_step s now .failure).failed_list ∧
      ((generator_worker_step s now .failure).items r).status = "failed" ∧
      ((generator_worker_step s now .failure).items r).error =
        some "Falha após 3 tentativas") := by
  have hcool' : ¬ (s.items r).last_attempt + 30 > now := by omega
  have hstop' : ¬ s.stopped = true := by simp [hstop]
  have hct : ((s.processing_queue ++ [r]).contains r) = true := by simp
  refine ⟨?_, ?_, ?_⟩
  · simp only [generator_worker_step, hpq, hstop', hcool', if_false,
      Bool.false_eq_true, reduceIte, DMState.setItem]
    by_cases hcap : (s.items r).retry_count + 1 ≤ 2
    · simp [hcap]
    · simp [hcap, hct]
  · intro hcap
    simp only [generator_worker_step, hpq, hstop', hcool', if_false,
      Bool.false_eq_true, reduceIte, DMState.setItem]
    simp [hcap]
  · intro hcap
    simp only [generator_worker_step, hpq, hstop', hcool', if_false,
      Bool.false_eq_true, reduceIte, DMState.setItem]
    simp [hcap, hct]

/-- Claim C3: the resolution retry counter never exceeds 3 (items waiting
in pending always have at most 2 recorded failures, and no item anywhere
exceeds 3 -- an invariant preserved by enqueueing and by every resolution
step), the transfer retry counter never exceeds 5 across a
`download_with_retry` run started at 0, and a resolution failure
increments the counter and, while within the cap, re-inserts the item at
the front of pending, otherwise moves it to the failed list with the
exhausted-attempts reason. -/
theorem c3_retry_counters_bounded :
    (∀ (s : DMState) (now : Nat) (o : ResolveOutcome), retryInv s →
      retryInv (generator_worker_step s now o)) ∧
    (∀ (s : DMState) (now_ms : Nat) (u v : String), retryInv s →
      retryInv (add_to_queue s now_ms u v).1) ∧
    (∀ (s : DMState) (r : Nat) (a2 : Bool) (now : Nat)
      (outs : List AttemptOutcome),
      (s.items r).download_retry_count = 0 →
      ((download_with_retry s r a2 now outs 5).1.items r).download_retry_count
        ≤ 5) ∧
    (∀ (s : DMState) (r : Nat) (rest : List Nat) (now : Nat),
      s.pending_queue = r :: rest → s.stopped = false →
      (s.items r).last_attempt + 30 ≤ now →
      ((generator_worker_step s now .failure).items r).retry_count =
        (s.items r).retry_count + 1 ∧
      ((s.items r).retry_count + 1 ≤ 2 →
        (generator_worker_step s now .failure).pending_queue = r :: rest) ∧
      (¬ (s.items r).retry_count + 1 ≤ 2 →
        r ∈ (generator_worker_step s now .failure).failed_list ∧
        ((generator_worker_step s now .failure).items r).status = "failed" ∧
        ((generator_worker_step s now .failure).items r).error =
          some "Falha após 3 tentativas")) :=
  ⟨retryInv_generator_step, retryInv_add_to_queue,
   download_with_retry_bound, generator_failure_behavior⟩

theorem c3_retry_counters_bounded_witness :
    retryInv (add_to_queue initState 1000 "https://youtu.be/a" "480p").1 ∧
    retryInv (generator_worker_step sAdd1 2000 .failure) ∧
    ((download_with_retry sReady 0 true 5000
        [.err "boom" "", .err "boom" ""] 5).1.items 0).download_retry_count ≤ 5 ∧
    ((generator_worker_step sAdd1 2000 .failure).items 0).retry_count =
      (sAdd1.items 0).retry_count + 1 := by
  have h0 : retryInv initState := by
    refine ⟨List.nodup_nil, by simp [initState], by simp [initState], fun q => ?_⟩
    show (default : Item).retry_count ≤ 3
    decide
  have h1 : retryInv (add_to_queue initState 1000 "https://youtu.be/a" "480p").1 :=
    c3_retry_counters_bounded.2.1 initState 1000 "https://youtu.be/a" "480p" h0
  refine ⟨h1, c3_retry_counters_bounded.1 sAdd1 2000 .failure h1, ?_, ?_⟩
  · exact c3_retry_counters_bounded.2.2.1 sReady 0 true 5000
      [.err "boom" "", .err "boom" ""] (by decide)
  · exact (c3_retry_counters_bounded.2.2.2 sAdd1 0 [] 2000 rfl rfl
      (by decide)).1
